import Mathlib

/-!
Shallow embedding of `hgl-rs` (src/lib.rs), a safety layer over a handle-based
graphics API (GL 3.1 core).  The external driver (the `gl` module) is modelled
as an explicit record of pure accessor functions (`Driver`), following the
boundary description in the specification: resource creation returns a handle,
integer-parameter queries return a value, and the log-retrieval call fills a
buffer and writes back a length.  Every operation of the library is embedded
as a pure function from the driver (and its arguments) to its result together
with the list of GL calls it issues, so that claims about which calls occur
(binds, deletes, retrievals) are statable.

Rust strings are represented by their UTF-8 byte lists; the `~str` produced by
`std::str::from_utf8_owned(..).expect(..)` is therefore the same byte list,
with `fail!`/`expect` panics modelled by an `Option` layer (`none` = panic).
-/

/- GL numeric constants used by src/lib.rs (values from the GL 3.1 headers). -/

def glTRUE : Int := 1

def glFALSE : Int := 0

def VERTEX_SHADER : Int := 0x8B31

def FRAGMENT_SHADER : Int := 0x8B30

def COMPILE_STATUS : Int := 0x8B81

def LINK_STATUS : Int := 0x8B82

def INFO_LOG_LENGTH : Int := 0x8B84

def ARRAY_BUFFER : Int := 0x8892

def STATIC_DRAW : Int := 0x88E4

def DYNAMIC_DRAW : Int := 0x88E8

def STREAM_DRAW : Int := 0x88E0

def FLOAT : Int := 0x1406

def POINTS : Int := 0x0000

def LINES : Int := 0x0001

def LINE_LOOP : Int := 0x0002

def LINE_STRIP : Int := 0x0003

def TRIANGLES : Int := 0x0004

def TRIANGLE_STRIP : Int := 0x0005

def TRIANGLE_FAN : Int := 0x0006

/-- Shader types (src/lib.rs `pub enum ShaderType`). -/
inductive ShaderType where
  | VertexShader
  | FragmentShader
deriving DecidableEq, Repr

/-- Convert a ShaderType into its corresponding GL value (src/lib.rs `ShaderType::to_glenum`). -/
def ShaderType.to_glenum : ShaderType → Int
  | .VertexShader => VERTEX_SHADER
  | .FragmentShader => FRAGMENT_SHADER

/-- Frequency with which the vbo is expected to be updated (src/lib.rs `pub enum VboUsage`). -/
inductive VboUsage where
  | StaticDraw
  | DynamicDraw
  | StreamDraw
deriving DecidableEq, Repr

/-- src/lib.rs `VboUsage::to_glenum`. -/
def VboUsage.to_glenum : VboUsage → Int
  | .StaticDraw => STATIC_DRAW
  | .DynamicDraw => DYNAMIC_DRAW
  | .StreamDraw => STREAM_DRAW

/-- src/lib.rs `pub enum Primitive`. -/
inductive Primitive where
  | Points
  | Lines
  | LineStrip
  | LineLoop
  | Triangles
  | TriangleStrip
  | TriangleFan
deriving DecidableEq, Repr

/-- src/lib.rs `Primitive::to_glenum`. -/
def Primitive.to_glenum : Primitive → Int
  | .Points => POINTS
  | .Lines => LINES
  | .LineStrip => LINE_STRIP
  | .LineLoop => LINE_LOOP
  | .Triangles => TRIANGLES
  | .TriangleStrip => TRIANGLE_STRIP
  | .TriangleFan => TRIANGLE_FAN

/-- One call into the underlying GL API, as issued by the library.  `getCall`
and `infoCall` are the two category-generic accessors passed to
`get_info_log` (GetShaderiv/GetProgramiv and GetShaderInfoLog/GetProgramInfoLog). -/
inductive GLCall where
  | createShader (gltype : Int)
  | shaderSource (shader : Nat) (source : String)
  | compileShader (shader : Nat)
  | deleteShader (shader : Nat)
  | createProgram
  | attachShader (program shader : Nat)
  | linkProgram (program : Nat)
  | deleteProgram (program : Nat)
  | getCall (handle : Nat) (pname : Int)
  | infoCall (handle : Nat) (bufSize : Int)
  | genBuffers
  | bindBuffer (target : Int) (buffer : Nat)
  | bufferData (target : Int) (size : Int) (usage : Int)
  | deleteBuffers (buffer : Nat)
  | useProgram (program : Nat)
  | bindFragDataLocation (program : Nat) (colorNumber : Nat) (nm : String)
  | genVertexArrays
  | bindVertexArray (vao : Nat)
  | deleteVertexArrays (vao : Nat)
  | getAttribLocation (program : Nat) (nm : String)
  | enableVertexAttribArray (pos : Nat)
  | vertexAttribPointer (pos : Nat) (elts ty normalized stride : Int) (offset : Nat)
  | drawArrays (mode first count : Int)
  | isShaderCall (handle : Nat)
deriving DecidableEq, Repr

/-- Is this call one of the resource-release (delete) entry points? -/
def GLCall.isDelete : GLCall → Bool
  | .deleteShader _ => true
  | .deleteProgram _ => true
  | .deleteBuffers _ => true
  | .deleteVertexArrays _ => true
  | _ => false

/-- Is this call an invocation of the text-retrieval accessor (the `info`
argument of `get_info_log`)? -/
def GLCall.isInfo : GLCall → Bool
  | .infoCall _ _ => true
  | _ => false

/-- Is this call one of the binding entry points (BindBuffer, BindVertexArray,
UseProgram), which mutate the context's current-binding state? -/
def GLCall.isBind : GLCall → Bool
  | .bindBuffer _ _ => true
  | .bindVertexArray _ => true
  | .useProgram _ => true
  | _ => false

/-- The external graphics driver, modelled as a record of pure functions:
each resource-creation call returns a handle, each integer query returns the
value it writes, and each info-log call returns the written-back length
together with the bytes it wrote into the caller's buffer. -/
structure Driver where
  createShader : Int → Nat
  shaderiv : Nat → Int → Int
  shaderInfoLog : Nat → Int → Int × List UInt8
  createProgram : Nat
  programiv : Nat → Int → Int
  programInfoLog : Nat → Int → Int × List UInt8
  IsShader : Nat → Int
  genBuffers : Nat
  genVertexArrays : Nat
  getAttribLocation : Nat → String → Int

/-- Rust's `len as uint` on a `GLint` value: cast to the 64-bit unsigned
machine integer (sign-extending, i.e. reduction mod 2^64). -/
def uintCast (i : Int) : Nat := (i % (2 : Int) ^ 64).toNat

/-- Rust's wrapping `- 1` on a `uint` (64-bit) value. -/
def usizeSub1 (n : Nat) : Nat := (n + (2 ^ 64 - 1)) % 2 ^ 64

/-- src/lib.rs `get_info_log`.  Queries `status` via `get`; on success (the
value equals `gl::TRUE`) returns `none`.  Otherwise reads INFO_LOG_LENGTH; if
it is 0 returns `some []` without calling `info`; otherwise calls
`info(shader, len, &mut len, buf)` and returns the buffer truncated by
`set_len(len as uint - 1)`, where `len` now holds the value `info` wrote back.
The second component is the list of accessor calls issued. -/
def get_info_log (shader : Nat) (get : Nat → Int → Int)
    (info : Nat → Int → Int × List UInt8) (status : Int) :
    Option (List UInt8) × List GLCall :=
  let ret := get shader status
  if ret = glTRUE then
    (none, [GLCall.getCall shader status])
  else
    let len := get shader INFO_LOG_LENGTH
    if len = 0 then
      (some [], [GLCall.getCall shader status, GLCall.getCall shader INFO_LOG_LENGTH])
    else
      let r := info shader len
      (some (r.2.take (usizeSub1 (uintCast r.1))),
       [GLCall.getCall shader status, GLCall.getCall shader INFO_LOG_LENGTH,
        GLCall.infoCall shader len])

/-- Is `b` a UTF-8 continuation byte (10xxxxxx)? -/
def isUtf8Cont (b : UInt8) : Bool := 0x80 ≤ b && b ≤ 0xBF

/-- Modelled from the spec: the external text-decoding step used by
`compile`/`link` (`std::str::from_utf8_owned`), whose source is not part of
this repository.  Per the spec, bytes that are "not valid text in the expected
encoding" are a fatal integrity error; this is the standard UTF-8 validity
predicate (shortest-form encodings of scalar values U+0000..U+10FFFF,
surrogates excluded). -/
def validUtf8 : List UInt8 → Bool
  | [] => true
  | b :: rest =>
    if b ≤ 0x7F then validUtf8 rest
    else if b < 0xC2 then false
    else if b ≤ 0xDF then
      match rest with
      | c1 :: rest1 => isUtf8Cont c1 && validUtf8 rest1
      | [] => false
    else if b ≤ 0xEF then
      match rest with
      | c1 :: c2 :: rest2 =>
        (if b = 0xE0 then 0xA0 ≤ c1 && c1 ≤ 0xBF
         else if b = 0xED then 0x80 ≤ c1 && c1 ≤ 0x9F
         else isUtf8Cont c1) && isUtf8Cont c2 && validUtf8 rest2
      | _ => false
    else if b ≤ 0xF4 then
      match rest with
      | c1 :: c2 :: c3 :: rest3 =>
        (if b = 0xF0 then 0x90 ≤ c1 && c1 ≤ 0xBF
         else if b = 0xF4 then 0x80 ≤ c1 && c1 ≤ 0x8F
         else isUtf8Cont c1) && isUtf8Cont c2 && isUtf8Cont c3 && validUtf8 rest3
      | _ => false
    else false

/-- src/lib.rs `pub struct Shader`. -/
structure Shader where
  name : Nat
  type_ : ShaderType
deriving DecidableEq, Repr

/-- src/lib.rs `Shader::new_raw`. -/
def Shader.new_raw (id : Nat) (type_ : ShaderType) : Shader :=
  { name := id, type_ := type_ }

/-- src/lib.rs `Shader::from_name`: in a debug build (`cfg!(not(ndebug))`,
modelled by the `debug` flag) the handle is checked with `gl::IsShader`; if
the driver reports `gl::FALSE` the function fails (`fail!`, modelled as
`none`).  Otherwise the handle is wrapped as-is. -/
def Shader.from_name (d : Driver) (debug : Bool) (name : Nat) (type_ : ShaderType) :
    Option Shader :=
  if debug then
    if d.IsShader name = glFALSE then none
    else some (Shader.new_raw name type_)
  else some (Shader.new_raw name type_)

/-- src/lib.rs `Shader::compile`: creates a shader handle, submits the source,
compiles, then runs `get_info_log` against COMPILE_STATUS.  `none` in the first
component models the `expect("non-utf8 infolog!")` panic. -/
def Shader.compile (d : Driver) (source : String) (type_ : ShaderType) :
    Option (Except (List UInt8) Shader) × List GLCall :=
  let gltype := type_.to_glenum
  let shader := d.createShader gltype
  let gil := get_info_log shader d.shaderiv d.shaderInfoLog COMPILE_STATUS
  (match gil.1 with
   | some s => if validUtf8 s then some (Except.error s) else none
   | none => some (Except.ok (Shader.new_raw shader type_)),
   [GLCall.createShader gltype, GLCall.shaderSource shader source,
    GLCall.compileShader shader] ++ gil.2)

/-- src/lib.rs `pub struct Program`. -/
structure Program where
  name : Nat
deriving DecidableEq, Repr

/-- src/lib.rs `Program::link`: creates a program handle, attaches every
shader of the slice, links, then runs `get_info_log` against LINK_STATUS.
`none` in the first component models the `expect("non-utf8 infolog!")` panic. -/
def Program.link (d : Driver) (shaders : List Shader) :
    Option (Except (List UInt8) Program) × List GLCall :=
  let program := d.createProgram
  let gil := get_info_log program d.programiv d.programInfoLog LINK_STATUS
  (match gil.1 with
   | some s => if validUtf8 s then some (Except.error s) else none
   | none => some (Except.ok { name := program }),
   GLCall.createProgram ::
     (shaders.map (fun s => GLCall.attachShader program s.name) ++
      (GLCall.linkProgram program :: gil.2)))

/-- src/lib.rs `Program::activate`. -/
def Program.activate (p : Program) : List GLCall :=
  [GLCall.useProgram p.name]

/-- src/lib.rs `Program::bind_frag`. -/
def Program.bind_frag (p : Program) (color_number : Nat) (nm : String) : List GLCall :=
  [GLCall.bindFragDataLocation p.name color_number nm]

/-- src/lib.rs `pub struct Vbo`. -/
structure Vbo where
  name : Nat
deriving DecidableEq, Repr

/-- src/lib.rs `Vbo::from_data`: generates a buffer handle, binds it to
ARRAY_BUFFER and uploads `data.len() * size_of::<T>()` bytes with the given
usage hint.  The element byte-size of `T` is the explicit `sizeOfT`
parameter.  No status is read back: the result is always `Ok`. -/
def Vbo.from_data {α : Type} (d : Driver) (sizeOfT : Nat) (data : List α)
    (usage : VboUsage) : Except (List UInt8) Vbo × List GLCall :=
  let vbo := d.genBuffers
  (Except.ok { name := vbo },
   [GLCall.genBuffers, GLCall.bindBuffer ARRAY_BUFFER vbo,
    GLCall.bufferData ARRAY_BUFFER ((data.length * sizeOfT : Nat) : Int)
      usage.to_glenum])

/-- src/lib.rs `Vbo::activate`. -/
def Vbo.activate (v : Vbo) : List GLCall :=
  [GLCall.bindBuffer ARRAY_BUFFER v.name]

/-- src/lib.rs `pub struct Vao`. -/
structure Vao where
  name : Nat
deriving DecidableEq, Repr

/-- src/lib.rs `Vao::new`. -/
def Vao.new (d : Driver) : Vao :=
  { name := d.genVertexArrays }

/-- src/lib.rs `Vao::activate`. -/
def Vao.activate (v : Vao) : List GLCall :=
  [GLCall.bindVertexArray v.name]

/-- Rust's `pos as GLuint` on a `GLint` value: reduction mod 2^32. -/
def gluintCast (i : Int) : Nat := (i % (2 : Int) ^ 32).toNat

/-- src/lib.rs `Vao::enable_attrib`: binds this VAO (via `activate`),
resolves `nm` to an attribute location in `program`, enables that attribute
index and describes its layout (hardcoded to FLOAT, not normalized). -/
def Vao.enable_attrib (v : Vao) (d : Driver) (program : Program) (nm : String)
    (elts stride : Int) (offset : Nat) : List GLCall :=
  v.activate ++
    (let pos := d.getAttribLocation program.name nm
     [GLCall.getAttribLocation program.name nm,
      GLCall.enableVertexAttribArray (gluintCast pos),
      GLCall.vertexAttribPointer (gluintCast pos) elts FLOAT glFALSE stride offset])

/-- src/lib.rs `Vao::draw`: issues DrawArrays for the given primitive, first
vertex and count; nothing else. -/
def Vao.draw (_v : Vao) (primitive : Primitive) (first count : Int) : List GLCall :=
  [GLCall.drawArrays primitive.to_glenum first count]

/-- The context's current-binding state mutated by the GL binding calls. -/
structure Bindings where
  arrayBuffer : Nat
  vertexArray : Nat
  currentProgram : Nat
deriving DecidableEq, Repr

/-- Effect of one GL call on the current-binding state: only the three
binding entry points change it. -/
def applyCall (b : Bindings) (c : GLCall) : Bindings :=
  match c with
  | .bindBuffer target buf =>
      if target = ARRAY_BUFFER then { b with arrayBuffer := buf } else b
  | .bindVertexArray v => { b with vertexArray := v }
  | .useProgram p => { b with currentProgram := p }
  | _ => b

/-- Does this possibly-panicking result hold the error (failure) variant? -/
def resultIsErr {ε α : Type} : Option (Except ε α) → Bool
  | some (.error _) => true
  | _ => false


/- Helper lemmas shared by several claim proofs. -/

/-- The protocol returns no diagnostic exactly when the queried status
parameter equals `gl::TRUE`. -/
theorem get_info_log_fst_none_iff (shader : Nat) (get : Nat → Int → Int)
    (info : Nat → Int → Int × List UInt8) (status : Int) :
    (get_info_log shader get info status).1 = none ↔ get shader status = glTRUE := by
  unfold get_info_log
  by_cases h : get shader status = glTRUE
  · simp [h]
  · simp only [if_neg h]
    by_cases h2 : get shader INFO_LOG_LENGTH = 0 <;> simp [h2, h]

/-- Unfolding equation for the result component of `Shader.compile`. -/
theorem compile_fst_eq (d : Driver) (src : String) (t : ShaderType) :
    (Shader.compile d src t).1 =
      match (get_info_log (d.createShader t.to_glenum) d.shaderiv d.shaderInfoLog
              COMPILE_STATUS).1 with
      | some s => if validUtf8 s then some (Except.error s) else none
      | none => some (Except.ok (Shader.new_raw (d.createShader t.to_glenum) t)) := rfl

/-- Unfolding equation for the result component of `Program.link`. -/
theorem link_fst_eq (d : Driver) (shaders : List Shader) :
    (Program.link d shaders).1 =
      match (get_info_log d.createProgram d.programiv d.programInfoLog LINK_STATUS).1 with
      | some s => if validUtf8 s then some (Except.error s) else none
      | none => some (Except.ok { name := d.createProgram }) := rfl

/- Concrete drivers used to instantiate theorems with hypotheses. -/

/-- A driver whose compile/link status queries report failure (0) with a
reported info-log length of 3 and log bytes "AB\0"; its info-log accessor
echoes back the requested length. -/
def dFail : Driver where
  createShader := fun _ => 7
  shaderiv := fun _ pname => if pname = COMPILE_STATUS then 0 else 3
  shaderInfoLog := fun _ n => (n, [65, 66, 0])
  createProgram := 9
  programiv := fun _ pname => if pname = LINK_STATUS then 0 else 3
  programInfoLog := fun _ n => (n, [65, 66, 0])
  IsShader := fun _ => 0
  genBuffers := 4
  genVertexArrays := 5
  getAttribLocation := fun _ _ => 2

/-- A driver whose status queries report success and whose IsShader query
answers `gl::TRUE`. -/
def dOk : Driver where
  createShader := fun _ => 7
  shaderiv := fun _ _ => 1
  shaderInfoLog := fun _ n => (n, [])
  createProgram := 9
  programiv := fun _ _ => 1
  programInfoLog := fun _ n => (n, [])
  IsShader := fun _ => 1
  genBuffers := 4
  genVertexArrays := 5
  getAttribLocation := fun _ _ => 2

/-- A driver whose status queries report failure with a reported info-log
length of 2 and log bytes 0xFF 0x00: the retrieved diagnostic byte 0xFF is
not valid UTF-8. -/
def dBadLog : Driver where
  createShader := fun _ => 7
  shaderiv := fun _ pname => if pname = COMPILE_STATUS then 0 else 2
  shaderInfoLog := fun _ n => (n, [255, 0])
  createProgram := 9
  programiv := fun _ pname => if pname = LINK_STATUS then 0 else 2
  programInfoLog := fun _ n => (n, [255, 0])
  IsShader := fun _ => 0
  genBuffers := 4
  genVertexArrays := 5
  getAttribLocation := fun _ _ => 2

/- Claim theorems. -/

/-- C9: ShaderType.to_glenum, VboUsage.to_glenum and Primitive.to_glenum are
pure total functions (totality is by construction of the Lean functions over
the closed enumerations) mapping each variant to its single corresponding GL
numeric constant. -/
theorem to_glenum_total_mappings :
    ShaderType.to_glenum .VertexShader = VERTEX_SHADER ∧
    ShaderType.to_glenum .FragmentShader = FRAGMENT_SHADER ∧
    VboUsage.to_glenum .StaticDraw = STATIC_DRAW ∧
    VboUsage.to_glenum .DynamicDraw = DYNAMIC_DRAW ∧
    VboUsage.to_glenum .StreamDraw = STREAM_DRAW ∧
    Primitive.to_glenum .Points = POINTS ∧
    Primitive.to_glenum .Lines = LINES ∧
    Primitive.to_glenum .LineStrip = LINE_STRIP ∧
    Primitive.to_glenum .LineLoop = LINE_LOOP ∧
    Primitive.to_glenum .Triangles = TRIANGLES ∧
    Primitive.to_glenum .TriangleStrip = TRIANGLE_STRIP ∧
    Primitive.to_glenum .TriangleFan = TRIANGLE_FAN :=
  ⟨rfl, rfl, rfl, rfl, rfl, rfl, rfl, rfl, rfl, rfl, rfl, rfl⟩

/-- C7: for every input slice (including the empty slice) and every usage
hint, `Vbo.from_data` returns the success variant wrapping the freshly
generated buffer handle, after issuing a BufferData upload of
`data.length * sizeOfT` bytes; no input produces the error variant. -/
theorem from_data_always_ok {α : Type} (d : Driver) (sizeOfT : Nat)
    (data : List α) (usage : VboUsage) :
    (Vbo.from_data d sizeOfT data usage).1 = Except.ok { name := d.genBuffers } ∧
    (Vbo.from_data d sizeOfT data usage).2 =
      [GLCall.genBuffers, GLCall.bindBuffer ARRAY_BUFFER d.genBuffers,
       GLCall.bufferData ARRAY_BUFFER ((data.length * sizeOfT : Nat) : Int)
         usage.to_glenum] :=
  ⟨rfl, rfl⟩

/-- C10: `Vao.draw` issues exactly one call, a DrawArrays; it performs no
binding call, so folding its trace over any current-binding state leaves the
state unchanged — unlike `Vao.enable_attrib`, whose first issued call binds
the receiver VAO, and `Vao.activate`, which consists of that bind. -/
theorem draw_issues_single_draw_no_bind (v : Vao) (p : Primitive)
    (first count : Int) (d : Driver) (prog : Program) (nm : String)
    (elts stride : Int) (offset : Nat) (b : Bindings) :
    Vao.draw v p first count = [GLCall.drawArrays p.to_glenum first count] ∧
    ((Vao.draw v p first count).all fun c => !c.isBind) = true ∧
    (Vao.draw v p first count).foldl applyCall b = b ∧
    (Vao.enable_attrib v d prog nm elts stride offset).head? =
      some (GLCall.bindVertexArray v.name) ∧
    Vao.activate v = [GLCall.bindVertexArray v.name] :=
  ⟨rfl, rfl, rfl, rfl, rfl⟩

/-- C2 counter-evidence (code bug): at the concrete driver `dFail`, whose
status queries report failure, both `Shader.compile` and `Program.link`
return the failure variant, yet their complete call traces contain no delete
call at all: the handle created at the start of the call is not released on
the error path. -/
theorem compile_link_error_path_issues_no_delete :
    resultIsErr (Shader.compile dFail "bad" ShaderType.VertexShader).1 = true ∧
    ((Shader.compile dFail "bad" ShaderType.VertexShader).2.all
      fun c => !c.isDelete) = true ∧
    resultIsErr (Program.link dFail []).1 = true ∧
    ((Program.link dFail []).2.all fun c => !c.isDelete) = true := by
  refine ⟨?_, ?_, ?_, ?_⟩ <;> decide

/-- C4: when the status query indicates failure and the reported info-log
length is 0, `get_info_log` returns the failure-with-empty-text result and
its call trace contains no invocation of the text-retrieval accessor. -/
theorem get_info_log_length_zero_skips_retrieval (shader : Nat)
    (get : Nat → Int → Int) (info : Nat → Int → Int × List UInt8) (status : Int)
    (hfail : get shader status ≠ glTRUE)
    (hlen : get shader INFO_LOG_LENGTH = 0) :
    (get_info_log shader get info status).1 = some [] ∧
    ((get_info_log shader get info status).2.all fun c => !c.isInfo) = true := by
  unfold get_info_log
  simp only [hlen, if_neg hfail, if_pos rfl]
  exact ⟨rfl, rfl⟩

/-- C4 witness: the hypotheses hold at `dFail`'s program accessors with a
status selector whose answer is 0 and a log-length answer forced to 0. -/
theorem get_info_log_length_zero_skips_retrieval_witness :
    (get_info_log 9 (fun _ _ => 0) dFail.programInfoLog LINK_STATUS).1 = some [] ∧
    ((get_info_log 9 (fun _ _ => 0) dFail.programInfoLog LINK_STATUS).2.all
      fun c => !c.isInfo) = true :=
  get_info_log_length_zero_skips_retrieval 9 (fun _ _ => 0) dFail.programInfoLog
    LINK_STATUS (by decide) (by decide)

/-- C3: when the status query indicates failure and the reported info-log
length is exactly 1 (the trailing terminator only), `get_info_log` returns
the failure variant with empty text, provided the simulated text-retrieval
accessor reports back the same length it was given. -/
theorem get_info_log_length_one_yields_empty (shader : Nat)
    (get : Nat → Int → Int) (info : Nat → Int → Int × List UInt8) (status : Int)
    (hfail : get shader status ≠ glTRUE)
    (hlen : get shader INFO_LOG_LENGTH = 1)
    (hecho : (info shader 1).1 = 1) :
    (get_info_log shader get info status).1 = some [] := by
  unfold get_info_log
  simp only [hlen, if_neg hfail, if_neg (by norm_num : ¬(1 : Int) = 0), hecho]
  have h0 : usizeSub1 (uintCast 1) = 0 := by decide
  rw [h0]
  rfl

/-- C3 witness: at a driver reporting failure with log length 1 and an
echoing info accessor, the protocol yields the empty diagnostic. -/
theorem get_info_log_length_one_yields_empty_witness :
    (get_info_log 7 (fun _ pname => if pname = COMPILE_STATUS then 0 else 1)
      (fun _ n => (n, [0])) COMPILE_STATUS).1 = some [] :=
  get_info_log_length_one_yields_empty 7
    (fun _ pname => if pname = COMPILE_STATUS then 0 else 1)
    (fun _ n => (n, [0])) COMPILE_STATUS (by decide) (by decide) (by decide)

/-- C1: when the status query indicates failure and the reported info-log
length is `n > 1` (within the GLint range), and the simulated text-retrieval
accessor fills the buffer and reports back the same length, `get_info_log`
returns a failure whose diagnostic has exactly `n - 1` bytes (the reported
length minus the trailing terminator). -/
theorem get_info_log_text_has_reported_length_minus_one (shader : Nat)
    (get : Nat → Int → Int) (info : Nat → Int → Int × List UInt8) (status : Int)
    (n : Nat)
    (hfail : get shader status ≠ glTRUE)
    (hlen : get shader INFO_LOG_LENGTH = (n : Int))
    (hn : 1 < n) (hsmall : n < 2 ^ 31)
    (hecho : (info shader (n : Int)).1 = (n : Int))
    (hbuf : n - 1 ≤ (info shader (n : Int)).2.length) :
    ∃ l, (get_info_log shader get info status).1 = some l ∧ l.length = n - 1 := by
  have hne : ¬ ((n : Int) = 0) := by omega
  unfold get_info_log
  simp only [hlen, if_neg hfail, if_neg hne, hecho]
  refine ⟨_, rfl, ?_⟩
  have h1 : uintCast (n : Int) = n := by
    unfold uintCast
    rw [Int.emod_eq_of_lt (by positivity)
      (by exact_mod_cast lt_trans hsmall (by norm_num))]
    simp
  have h2 : usizeSub1 n = n - 1 := by
    unfold usizeSub1
    have h3 : n + (2 ^ 64 - 1) = (n - 1) + 2 ^ 64 := by omega
    rw [h3, Nat.add_mod_right]
    exact Nat.mod_eq_of_lt (by omega)
  rw [h1, h2, List.length_take]
  omega

/-- C1 witness: at `dFail`'s shader accessors the reported length is 3 and
the protocol yields a 2-byte diagnostic. -/
theorem get_info_log_text_has_reported_length_minus_one_witness :
    ∃ l, (get_info_log 7 dFail.shaderiv dFail.shaderInfoLog COMPILE_STATUS).1 =
        some l ∧ l.length = 3 - 1 :=
  get_info_log_text_has_reported_length_minus_one 7 dFail.shaderiv
    dFail.shaderInfoLog COMPILE_STATUS 3 (by decide) (by decide) (by decide)
    (by decide) (by decide) (by decide)

/-- C8: in a debug build, `Shader.from_name` on a handle the driver reports
is not a shader object fails fatally (`none`); on a handle the driver reports
is a shader object it returns, in any build, the wrapper of exactly that
handle and stage. -/
theorem from_name_integrity_check (d : Driver) (name : Nat) (t : ShaderType) :
    (d.IsShader name = glFALSE → Shader.from_name d true name t = none) ∧
    (d.IsShader name = glTRUE →
      ∀ debug : Bool, Shader.from_name d debug name t =
        some (Shader.new_raw name t)) := by
  constructor
  · intro h
    simp [Shader.from_name, h]
  · intro h debug
    cases debug <;> simp [Shader.from_name, h, glTRUE, glFALSE]

/-- C8 witness: `dFail` answers IsShader with FALSE and `from_name` fails;
`dOk` answers TRUE and `from_name` wraps the given handle and stage. -/
theorem from_name_integrity_check_witness :
    Shader.from_name dFail true 3 ShaderType.VertexShader = none ∧
    Shader.from_name dOk true 3 ShaderType.VertexShader =
      some (Shader.new_raw 3 ShaderType.VertexShader) :=
  ⟨(from_name_integrity_check dFail 3 ShaderType.VertexShader).1 (by decide),
   (from_name_integrity_check dOk 3 ShaderType.VertexShader).2 (by decide) true⟩

/-- C6: if the diagnostic bytes produced by the protocol are not valid UTF-8,
`Shader.compile` and `Program.link` end in the modelled panic (`none`) rather
than returning any result value. -/
theorem compile_link_fatal_on_invalid_utf8 (d : Driver) (src : String)
    (t : ShaderType) (shaders : List Shader) :
    (∀ s, (get_info_log (d.createShader t.to_glenum) d.shaderiv d.shaderInfoLog
        COMPILE_STATUS).1 = some s →
      validUtf8 s = false → (Shader.compile d src t).1 = none) ∧
    (∀ s, (get_info_log d.createProgram d.programiv d.programInfoLog
        LINK_STATUS).1 = some s →
      validUtf8 s = false → (Program.link d shaders).1 = none) := by
  constructor
  · intro s hs hbad
    rw [compile_fst_eq, hs]
    simp [hbad]
  · intro s hs hbad
    rw [link_fst_eq, hs]
    simp [hbad]

/-- C6 witness: at `dBadLog` the retrieved diagnostic is the single byte
0xFF, which is not valid UTF-8, and both operations end in the panic. -/
theorem compile_link_fatal_on_invalid_utf8_witness :
    (Shader.compile dBadLog "x" ShaderType.VertexShader).1 = none ∧
    (Program.link dBadLog []).1 = none :=
  ⟨(compile_link_fatal_on_invalid_utf8 dBadLog "x" ShaderType.VertexShader []).1
      [255] (by decide) (by decide),
   (compile_link_fatal_on_invalid_utf8 dBadLog "x" ShaderType.VertexShader []).2
      [255] (by decide) (by decide)⟩

/-- Helper for C5, compile half: with valid-UTF-8 diagnostics, the compile
result is the failure variant exactly when the compile-status query does not
answer `gl::TRUE`, success wraps the created handle, and failure carries the
protocol's diagnostic. -/
theorem compile_spec_aux (d : Driver) (src : String) (t : ShaderType)
    (hv : ∀ s, (get_info_log (d.createShader t.to_glenum) d.shaderiv
        d.shaderInfoLog COMPILE_STATUS).1 = some s → validUtf8 s = true) :
    (resultIsErr (Shader.compile d src t).1 = true ↔
      d.shaderiv (d.createShader t.to_glenum) COMPILE_STATUS ≠ glTRUE) ∧
    (d.shaderiv (d.createShader t.to_glenum) COMPILE_STATUS = glTRUE →
      (Shader.compile d src t).1 =
        some (Except.ok (Shader.new_raw (d.createShader t.to_glenum) t))) ∧
    (∀ s, (get_info_log (d.createShader t.to_glenum) d.shaderiv d.shaderInfoLog
        COMPILE_STATUS).1 = some s →
      (Shader.compile d src t).1 = some (Except.error s)) := by
  have hiff := get_info_log_fst_none_iff (d.createShader t.to_glenum) d.shaderiv
    d.shaderInfoLog COMPILE_STATUS
  rcases hg : (get_info_log (d.createShader t.to_glenum) d.shaderiv
      d.shaderInfoLog COMPILE_STATUS).1 with _ | s
  · have hst := hiff.mp hg
    refine ⟨?_, ?_, ?_⟩
    · rw [compile_fst_eq, hg]
      simp [resultIsErr, hst]
    · intro _
      rw [compile_fst_eq, hg]
    · intro s hs
      simp at hs
  · have hst : ¬ d.shaderiv (d.createShader t.to_glenum) COMPILE_STATUS = glTRUE := by
      intro h
      rw [← hiff] at h
      rw [hg] at h
      cases h
    have hval := hv s hg
    refine ⟨?_, ?_, ?_⟩
    · rw [compile_fst_eq, hg]
      simp [resultIsErr, hval, hst]
    · intro h
      exact absurd h hst
    · intro s2 hs2
      injection hs2 with h2
      subst h2
      rw [compile_fst_eq, hg]
      simp [hval]

/-- Helper for C5, link half: same statement for `Program.link` against the
link-status query. -/
theorem link_spec_aux (d : Driver) (shaders : List Shader)
    (hv : ∀ s, (get_info_log d.createProgram d.programiv d.programInfoLog
        LINK_STATUS).1 = some s → validUtf8 s = true) :
    (resultIsErr (Program.link d shaders).1 = true ↔
      d.programiv d.createProgram LINK_STATUS ≠ glTRUE) ∧
    (d.programiv d.createProgram LINK_STATUS = glTRUE →
      (Program.link d shaders).1 = some (Except.ok { name := d.createProgram })) ∧
    (∀ s, (get_info_log d.createProgram d.programiv d.programInfoLog
        LINK_STATUS).1 = some s →
      (Program.link d shaders).1 = some (Except.error s)) := by
  have hiff := get_info_log_fst_none_iff d.createProgram d.programiv
    d.programInfoLog LINK_STATUS
  rcases hg : (get_info_log d.createProgram d.programiv d.programInfoLog
      LINK_STATUS).1 with _ | s
  · have hst := hiff.mp hg
    refine ⟨?_, ?_, ?_⟩
    · rw [link_fst_eq, hg]
      simp [resultIsErr, hst]
    · intro _
      rw [link_fst_eq, hg]
    · intro s hs
      simp at hs
  · have hst : ¬ d.programiv d.createProgram LINK_STATUS = glTRUE := by
      intro h
      rw [← hiff] at h
      rw [hg] at h
      cases h
    have hval := hv s hg
    refine ⟨?_, ?_, ?_⟩
    · rw [link_fst_eq, hg]
      simp [resultIsErr, hval, hst]
    · intro h
      exact absurd h hst
    · intro s2 hs2
      injection hs2 with h2
      subst h2
      rw [link_fst_eq, hg]
      simp [hval]

/-- C5: provided the protocol's diagnostics decode as valid UTF-8 (otherwise
the call panics, see C6), `Shader.compile` and `Program.link` return the
failure variant exactly when the queried status parameter does not answer
`gl::TRUE`; on success they return the owning wrapper of the created handle
with no diagnostic, and on failure the error carries the (possibly empty)
diagnostic from `get_info_log`. -/
theorem compile_link_failure_iff_status_not_success (d : Driver) (src : String)
    (t : ShaderType) (shaders : List Shader)
    (hvS : ∀ s, (get_info_log (d.createShader t.to_glenum) d.shaderiv
        d.shaderInfoLog COMPILE_STATUS).1 = some s → validUtf8 s = true)
    (hvP : ∀ s, (get_info_log d.createProgram d.programiv d.programInfoLog
        LINK_STATUS).1 = some s → validUtf8 s = true) :
    (resultIsErr (Shader.compile d src t).1 = true ↔
      d.shaderiv (d.createShader t.to_glenum) COMPILE_STATUS ≠ glTRUE) ∧
    (d.shaderiv (d.createShader t.to_glenum) COMPILE_STATUS = glTRUE →
      (Shader.compile d src t).1 =
        some (Except.ok (Shader.new_raw (d.createShader t.to_glenum) t))) ∧
    (∀ s, (get_info_log (d.createShader t.to_glenum) d.shaderiv d.shaderInfoLog
        COMPILE_STATUS).1 = some s →
      (Shader.compile d src t).1 = some (Except.error s)) ∧
    (resultIsErr (Program.link d shaders).1 = true ↔
      d.programiv d.createProgram LINK_STATUS ≠ glTRUE) ∧
    (d.programiv d.createProgram LINK_STATUS = glTRUE →
      (Program.link d shaders).1 = some (Except.ok { name := d.createProgram })) ∧
    (∀ s, (get_info_log d.createProgram d.programiv d.programInfoLog
        LINK_STATUS).1 = some s →
      (Program.link d shaders).1 = some (Except.error s)) := by
  obtain ⟨a1, a2, a3⟩ := compile_spec_aux d src t hvS
  obtain ⟨b1, b2, b3⟩ := link_spec_aux d shaders hvP
  exact ⟨a1, a2, a3, b1, b2, b3⟩

/-- C5 witness: instantiated at the failing driver `dFail`, whose diagnostic
bytes "AB" are valid UTF-8. -/
theorem compile_link_failure_iff_status_not_success_witness :
    (resultIsErr (Shader.compile dFail "x" ShaderType.VertexShader).1 = true ↔
      dFail.shaderiv (dFail.createShader ShaderType.VertexShader.to_glenum)
        COMPILE_STATUS ≠ glTRUE) ∧
    (dFail.shaderiv (dFail.createShader ShaderType.VertexShader.to_glenum)
        COMPILE_STATUS = glTRUE →
      (Shader.compile dFail "x" ShaderType.VertexShader).1 =
        some (Except.ok (Shader.new_raw
          (dFail.createShader ShaderType.VertexShader.to_glenum)
          ShaderType.VertexShader))) ∧
    (∀ s, (get_info_log (dFail.createShader ShaderType.VertexShader.to_glenum)
        dFail.shaderiv dFail.shaderInfoLog COMPILE_STATUS).1 = some s →
      (Shader.compile dFail "x" ShaderType.VertexShader).1 =
        some (Except.error s)) ∧
    (resultIsErr (Program.link dFail []).1 = true ↔
      dFail.programiv dFail.createProgram LINK_STATUS ≠ glTRUE) ∧
    (dFail.programiv dFail.createProgram LINK_STATUS = glTRUE →
      (Program.link dFail []).1 =
        some (Except.ok { name := dFail.createProgram })) ∧
    (∀ s, (get_info_log dFail.createProgram dFail.programiv dFail.programInfoLog
        LINK_STATUS).1 = some s →
      (Program.link dFail []).1 = some (Except.error s)) :=
  compile_link_failure_iff_status_not_success dFail "x" ShaderType.VertexShader []
    (fun s hs => by
      have h : (get_info_log (dFail.createShader ShaderType.VertexShader.to_glenum)
          dFail.shaderiv dFail.shaderInfoLog COMPILE_STATUS).1 = some [65, 66] := by
        decide
      rw [h] at hs
      injection hs with h2
      rw [← h2]
      decide)
    (fun s hs => by
      have h : (get_info_log dFail.createProgram dFail.programiv
          dFail.programInfoLog LINK_STATUS).1 = some [65, 66] := by
        decide
      rw [h] at hs
      injection hs with h2
      rw [← h2]
      decide)
